import Mathlib

/-! Runtime state and control of raspi5-go-status.

A shallow embedding of the control logic of `src/main.go` and `src/func.go`:
the process-wide variables become the fields of `State`, every function that
reads or writes them becomes a function on `State`, and the goroutines
(main loop, four button watchers, file watcher) become events applied one at
a time.

Conventions.
* Go `int` and `time.Duration` are 64-bit signed; they are `Int` here and
  every arithmetic result is passed through `wrapInt`.
* Go strings are taken as sequences of runes (`String`).
* A GPIO pin handle is identified with the name it was resolved from
  (`gpioreg.ByName`); the level driven on an output pin is `pinLevel name`.
* Calls that end the process through `log.Fatal` (a failed pin or display
  write) are not part of the model: every transition describes the run in
  which the hardware call succeeds.
-/

namespace Raspi5Status

/-! ## Machine integers -/

/-- Smallest value of a Go `int` on the 64-bit target. -/
def minInt : Int := -9223372036854775808

/-- Largest value of a Go `int` on the 64-bit target. -/
def maxInt : Int := 9223372036854775807

/-- Two's complement wrap-around of a 64-bit signed result. -/
def wrapInt (x : Int) : Int :=
  (x + 9223372036854775808) % 18446744073709551616 - 9223372036854775808

/-- The value is representable as a Go `int`. -/
def InInt (x : Int) : Prop := minInt ≤ x ∧ x ≤ maxInt

instance (x : Int) : Decidable (InInt x) := by
  unfold InInt
  infer_instance

/-- One second as a `time.Duration` (nanoseconds). -/
def second : Int := 1000000000

/-- One millisecond as a `time.Duration` (nanoseconds). -/
def millisecond : Int := 1000000

/-! ## Library functions used by the configuration readers -/

/-- Decimal digit test of `strconv.Atoi`. -/
def isDigit (c : Char) : Bool := decide ('0' ≤ c) && decide (c ≤ '9')

/-- Value of a run of decimal digits, most significant first. -/
def digitsValue (cs : List Char) : Nat :=
  cs.foldl (fun acc c => acc * 10 + (c.toNat - 48)) 0

/-- Go's `strconv.Atoi`: an optional sign followed by at least one decimal
digit, nothing else, and a value that fits a 64-bit `int`; `none` stands for
a non-nil error. -/
def atoi (s : String) : Option Int :=
  match s.data with
  | [] => none
  | c :: rest =>
    let neg := c == '-'
    let ds := if c == '-' || c == '+' then rest else c :: rest
    if ds.isEmpty || !ds.all isDigit then none
    else
      let n : Int := (digitsValue ds : Nat)
      if neg then (if n ≤ 9223372036854775808 then some (-n) else none)
      else (if n ≤ 9223372036854775807 then some n else none)

/-- Go's `unicode.ToLower` on one rune: `A`-`Z` are shifted to `a`-`z`, other
ASCII runes are unchanged, and a rune outside ASCII is mapped by the Unicode
case tables, which are the parameter `tbl`. -/
def toLowerRune (tbl : Char → Char) (c : Char) : Char :=
  if c.toNat < 128 then c.toLower else tbl c

/-- Go's `strings.ToLower`. -/
def toLower (tbl : Char → Char) (s : String) : String :=
  String.mk (s.data.map (toLowerRune tbl))

/-! ## Configuration -/

/-- The parsed `.env` file, `map[string]string`. -/
abbrev Config := List (String × String)

/-- Indexing a Go map: the zero value `""` for a missing key. -/
def Config.get (cfg : Config) (k : String) : String :=
  (cfg.lookup k).getD ""

/-- `loadEnv`: the map read by `godotenv.Read`, or an empty map when the read
returns an error (`file = none`). -/
def loadEnv (file : Option Config) : Config :=
  match file with
  | some envMap => envMap
  | none => []

/-- `shouldShowDHT`. -/
def shouldShowDHT (tbl : Char → Char) (cfg : Config) : Bool × String × String :=
  let showDHTStr := cfg.get "SHOW_DHT"
  let DHTTypeStr := if cfg.get "DHT_TYPE" = "" then "DHT11" else cfg.get "DHT_TYPE"
  let DHTPinStr := if cfg.get "DHT_PIN" = "" then "4" else cfg.get "DHT_PIN"
  (decide (toLower tbl showDHTStr = "true"), DHTTypeStr, DHTPinStr)

/-- `shouldShowLOGO`. -/
def shouldShowLOGO (tbl : Char → Char) (cfg : Config) : Bool :=
  decide (toLower tbl (cfg.get "SHOW_LOGO") = "true")

/-- `shouldOnLoop`. -/
def shouldOnLoop (tbl : Char → Char) (cfg : Config) : Bool :=
  decide (toLower tbl (cfg.get "ON_LOOP") = "true")

/-- `defaultPage`. -/
def defaultPage (cfg : Config) : Int :=
  let defaultPageStr := if cfg.get "DEFAULT_PAGE" = "" then "0" else cfg.get "DEFAULT_PAGE"
  match atoi defaultPageStr with
  | none => 0
  | some stepBy => if stepBy ≤ 0 then 0 else stepBy

/-- `showSleepTime`, in nanoseconds. -/
def showSleepTime (cfg : Config) : Int :=
  let showSleep := if cfg.get "SLEEP_TIME" = "" then "3" else cfg.get "SLEEP_TIME"
  match atoi showSleep with
  | none => 3 * second
  | some timeSleep => wrapInt (timeSleep * second)

/-- `button1PinName`. -/
def button1PinName (cfg : Config) : String :=
  if cfg.get "GPIO_BUTTON1" = "" then "GPIO17" else cfg.get "GPIO_BUTTON1"

/-- `button2PinName`. -/
def button2PinName (cfg : Config) : String :=
  if cfg.get "GPIO_BUTTON2" = "" then "GPIO27" else cfg.get "GPIO_BUTTON2"

/-- `button3PinName`. -/
def button3PinName (cfg : Config) : String :=
  if cfg.get "GPIO_BUTTON3" = "" then "GPIO22" else cfg.get "GPIO_BUTTON3"

/-- `button4PinName`. -/
def button4PinName (cfg : Config) : String :=
  if cfg.get "GPIO_BUTTON4" = "" then "GPIO23" else cfg.get "GPIO_BUTTON4"

/-- `setButtonPage`; `stepEnd` is the process-wide last page it reads. -/
def setButtonPage (cfg : Config) (stepEnd : Int) : Int :=
  match atoi (cfg.get "BUTTON_PAGE") with
  | none => 4
  | some pageStrInt =>
    if pageStrInt > stepEnd then stepEnd
    else if pageStrInt ≤ 0 then 1
    else pageStrInt

/-- `led1PinName`. -/
def led1PinName (cfg : Config) : String :=
  if cfg.get "GPIO_LED1" = "" then "GPIO26" else cfg.get "GPIO_LED1"

/-! ## Process state -/

/-- The package-level variables of `main.go`, with the output level of every
GPIO pin (`true` is `gpio.High`). -/
structure State where
  envConfig : Config
  showLOGO : Bool
  showDHT : Bool
  DHTType : String
  DHTPin : String
  onLoop : Bool
  sleepTime : Int
  originalSleep : Int
  firstRun : Bool
  stepBy : Int
  stepEnd : Int
  button1Pin : String
  button2Pin : String
  button3Pin : String
  button4Pin : String
  buttonPage : Int
  led1Pin : String
  pinLevel : String → Bool

/-- `pin.Out(level)`. -/
def pinOut (lv : String → Bool) (pin : String) (level : Bool) : String → Bool :=
  fun p => if p = pin then level else lv p

/-- The indicator LED is lit: the level driven on the current `led1Pin`. -/
def State.ledActive (s : State) : Bool := s.pinLevel s.led1Pin

/-- `initGPIO`: the LED follows `onLoop`; the button pins become inputs. -/
def initGPIO (s : State) : State :=
  if s.onLoop then { s with pinLevel := pinOut s.pinLevel s.led1Pin true }
  else { s with pinLevel := pinOut s.pinLevel s.led1Pin false }

/-- `stopLoop`. -/
def stopLoop (s : State) : State :=
  { s with
    sleepTime := 1 * second
    pinLevel := pinOut s.pinLevel s.led1Pin false
    onLoop := false }

/-- The four button watchers started by `main`. -/
inductive Button where
  | button1
  | button2
  | button3
  | button4
  deriving DecidableEq, Repr

/-- The `switch buttonName` of `waitForButtonPress`, run for one confirmed
press. -/
def press (b : Button) (s : State) : State :=
  match b with
  | .button1 =>
    stopLoop (if s.stepBy ≤ 1 then { s with stepBy := s.stepEnd }
              else { s with stepBy := wrapInt (s.stepBy - 1) })
  | .button2 =>
    stopLoop (if s.stepBy ≥ s.stepEnd then { s with stepBy := 1 }
              else { s with stepBy := wrapInt (s.stepBy + 1) })
  | .button3 => stopLoop { s with stepBy := s.buttonPage }
  | .button4 =>
    let s1 := { s with onLoop := !s.onLoop }
    if s1.onLoop then
      { s1 with
        sleepTime := s1.originalSleep
        pinLevel := pinOut s1.pinLevel s1.led1Pin true }
    else stopLoop s1

/-- Page update after the tick sleep of the main loop (`main.go`, the two
`if`s that follow `time.Sleep(sleepTime)`). -/
def tickEnd (s : State) : State :=
  let s1 := if s.onLoop then { s with stepBy := wrapInt (s.stepBy + 1) } else s
  if s1.stepBy > s1.stepEnd then { s1 with stepBy := 1 } else s1

/-- One pass through the `default:` branch of the main loop. `dhtInitOk`
tells whether `dht.HostInit` and `dht.NewDHT` succeed; when they fail on the
sensor page `main` returns, which is `none`. -/
def mainLoopIter (dhtInitOk : Bool) (s : State) : Option State :=
  if s.stepBy = 0 ∨ s.firstRun = true then
    let s1 := if s.stepBy = 0 then { s with stepBy := wrapInt (s.stepBy + 1) } else s
    some { s1 with firstRun := false }
  else if s.stepBy = 1 then
    if s.showDHT then
      if dhtInitOk then some (tickEnd s) else none
    else some { s with stepBy := wrapInt (s.stepBy + 1) }
  else some (tickEnd s)

/-- The logo animation is played in this pass of the main loop. -/
def playsLogo (s : State) : Bool :=
  (decide (s.stepBy = 0) || s.firstRun) && (s.showLOGO && s.firstRun)

/-- The assignments made after every `loadEnv`, both in `main` and in
`monitorEnvFile`: derived settings, pin handles, `initGPIO`. -/
def applyConfig (tbl : Char → Char) (s : State) : State :=
  let cfg := s.envConfig
  let s1 := { s with
    showLOGO := shouldShowLOGO tbl cfg
    showDHT := (shouldShowDHT tbl cfg).1
    DHTType := (shouldShowDHT tbl cfg).2.1
    DHTPin := (shouldShowDHT tbl cfg).2.2
    onLoop := shouldOnLoop tbl cfg
    stepBy := defaultPage cfg
    sleepTime := showSleepTime cfg
    originalSleep := showSleepTime cfg
    button1Pin := button1PinName cfg
    button2Pin := button2PinName cfg
    button3Pin := button3PinName cfg
    button4Pin := button4PinName cfg
    buttonPage := setButtonPage cfg s.stepEnd
    led1Pin := led1PinName cfg }
  initGPIO s1

/-- The reload branch of `monitorEnvFile` for a write notification that is
not discarded. -/
def reload (tbl : Char → Char) (file : Option Config) (s : State) : State :=
  applyConfig tbl { s with envConfig := loadEnv file }

/-- The start of `main` up to `firstRun = true`; `lv0` is the level of the
pins when the process starts. -/
def initState (tbl : Char → Char) (file : Option Config) (lv0 : String → Bool) : State :=
  let cfg := loadEnv file
  let s0 : State :=
    { envConfig := cfg
      showLOGO := shouldShowLOGO tbl cfg
      showDHT := (shouldShowDHT tbl cfg).1
      DHTType := (shouldShowDHT tbl cfg).2.1
      DHTPin := (shouldShowDHT tbl cfg).2.2
      onLoop := shouldOnLoop tbl cfg
      sleepTime := showSleepTime cfg
      originalSleep := showSleepTime cfg
      firstRun := false
      stepBy := defaultPage cfg
      stepEnd := 6
      button1Pin := button1PinName cfg
      button2Pin := button2PinName cfg
      button3Pin := button3PinName cfg
      button4Pin := button4PinName cfg
      buttonPage := setButtonPage cfg 6
      led1Pin := led1PinName cfg
      pinLevel := lv0 }
  { initGPIO s0 with firstRun := true }

/-- What the goroutines do to the shared state, one step at a time. -/
inductive Event where
  | reload (file : Option Config)
  | press (b : Button)
  | pause
  | tick (dhtInitOk : Bool)

/-- Effect of one event; `none` when `main` returns. -/
def step (tbl : Char → Char) (s : State) : Event → Option State
  | .reload file => some (reload tbl file s)
  | .press b => some (press b s)
  | .pause => some (stopLoop s)
  | .tick dhtInitOk => mainLoopIter dhtInitOk s

/-- Effect of a sequence of events. -/
def run (tbl : Char → Char) (s : State) : List Event → Option State
  | [] => some s
  | e :: es => (step tbl s e).bind (fun s1 => run tbl s1 es)

/-- Effect of a sequence of confirmed button presses. -/
def pressAll (bs : List Button) (s : State) : State :=
  bs.foldl (fun acc b => press b acc) s

/-- The event is a configuration reload. -/
def Event.isReload : Event → Bool
  | .reload _ => true
  | _ => false

/-! ## Configuration file watcher -/

/-- Go's `now.Sub(last)` for `now` taken from `time.Now()`, as nanoseconds.
`last = none` is the zero `time.Time`, against which the difference is out of
range and saturates to the largest duration; otherwise it is the difference of
the two monotonic clock readings, saturated to the `int64` range. -/
def timeSub (now : Int) (last : Option Int) : Int :=
  match last with
  | none => maxInt
  | some u =>
    if now - u > maxInt then maxInt
    else if now - u < minInt then minInt
    else now - u

/-- A value received from `watcher.Events`, with the reading of `time.Now()`
the loop takes for it. -/
structure FsEvent where
  name : String
  write : Bool
  now : Int

/-- The two local variables of `monitorEnvFile`. -/
structure WatchState where
  lastWriteTime : Option Int
  lastWriteFile : String
  deriving DecidableEq

/-- Their zero values when the loop starts. -/
def freshWatch : WatchState := { lastWriteTime := none, lastWriteFile := "" }

/-- One pass of the `select` loop of `monitorEnvFile` for a received event:
the new locals, and whether the reload branch ran. -/
def onEvent (w : WatchState) (e : FsEvent) : WatchState × Bool :=
  if e.write then
    if e.name = w.lastWriteFile ∧ timeSub e.now w.lastWriteTime < 1000 * millisecond then
      (w, false)
    else
      ({ lastWriteTime := some e.now, lastWriteFile := e.name }, true)
  else (w, false)

/-- The loop over a sequence of received events: the final locals and, for
each event in order, whether it triggered a reload. -/
def monitorEnvFile (w : WatchState) : List FsEvent → WatchState × List Bool
  | [] => (w, [])
  | e :: es =>
    ((monitorEnvFile (onEvent w e).1 es).1,
      (onEvent w e).2 :: (monitorEnvFile (onEvent w e).1 es).2)

/-- One pass of the loop on the shared state: a reload when the event is not
discarded; `file` is what `godotenv.Read` returns at that moment. -/
def monitorStep (tbl : Char → Char) (ws : WatchState × State) (e : FsEvent)
    (file : Option Config) : WatchState × State :=
  if (onEvent ws.1 e).2 then ((onEvent ws.1 e).1, reload tbl file ws.2)
  else ((onEvent ws.1 e).1, ws.2)

/-- A write notification on `.env` read by the loop at `t` milliseconds. -/
def envWriteAt (t : Int) : FsEvent := { name := ".env", write := true, now := t * millisecond }

/-- The value is one of the sixteen upper/lower case spellings of `true`. -/
def spellsTrue (s : String) : Bool :=
  match s.data with
  | [a, b, c, d] =>
    (a == 't' || a == 'T') && (b == 'r' || b == 'R') && (c == 'u' || c == 'U') &&
      (d == 'e' || d == 'E')
  | _ => false

/-! ## Strings as bytes -/

/-- The bytes of a Go string: the UTF-8 encoding of its runes. -/
def goBytes (s : String) : List UInt8 := s.data.flatMap String.utf8EncodeChar

/-- The slice expression `s[i:j]` on the bytes of a string; `none` is the
run-time panic for slice bounds out of range. -/
def slice (s : List UInt8) (i j : Int) : Option (List UInt8) :=
  if 0 ≤ i ∧ i ≤ j ∧ j ≤ s.length then some ((s.drop i.toNat).take (j - i).toNat)
  else none

/-- The `for` loop of `splitByN` from index `i` with the pieces collected so
far. `fuel` bounds the number of passes; `none` is a panic in the slice
expression, or no fuel left. -/
def splitByNLoop (s : List UInt8) (n : Int) :
    Nat → Int → List (List UInt8) → Option (List (List UInt8))
  | 0, _, _ => none
  | fuel + 1, i, result =>
    if i < s.length then
      let stop := if wrapInt (i + n) > s.length then (s.length : Int) else wrapInt (i + n)
      match slice s i stop with
      | none => none
      | some piece => splitByNLoop s n fuel (wrapInt (i + n)) (result ++ [piece])
    else some result

/-- `splitByN`. With `n > 0` the loop makes at most `len(s)` passes and one
last test, so this fuel is never used up; with `n = 0` the Go loop does not
end, which is `none` here. -/
def splitByN (s : List UInt8) (n : Int) : Option (List (List UInt8)) :=
  splitByNLoop s n (s.length + 1) 0 []

/-! ## Network address page -/

/-- An IPv4 address, the four bytes of `ip.To4()`. -/
structure IPv4 where
  a : UInt8
  b : UInt8
  c : UInt8
  d : UInt8

/-- `ip.String()` of an IPv4 address: dotted decimal. -/
def IPv4.text (ip : IPv4) : String :=
  toString ip.a.toNat ++ "." ++ toString ip.b.toNat ++ "." ++ toString ip.c.toNat ++ "." ++
    toString ip.d.toNat

/-- `ip.IsLoopback()` of an IPv4 address. -/
def IPv4.isLoopback (ip : IPv4) : Bool := ip.a == 127

/-- One entry of `net.Interfaces()`: its name and what `i.Addrs()` returns,
`none` for an error. An address is `some ip` when `ip.To4()` is not nil and
`none` otherwise. -/
structure NetInterface where
  name : String
  addrs : Option (List (Option IPv4))

/-- The inner loop of `getIPAddress` over the addresses of one interface. -/
def firstIPv4 : List (Option IPv4) → Option String
  | [] => none
  | none :: rest => firstIPv4 rest
  | some ip :: rest => if !ip.isLoopback then some ip.text else firstIPv4 rest

/-- The outer loop of `getIPAddress` over the interfaces. -/
def scanInterfaces : List NetInterface → Option String
  | [] => none
  | i :: rest =>
    if i.name = "wlan0" ∨ i.name = "eth0" then
      match i.addrs with
      | none => scanInterfaces rest
      | some addrs =>
        match firstIPv4 addrs with
        | some text => some text
        | none => scanInterfaces rest
    else scanInterfaces rest

/-- `getIPAddress`: `hostname` is what `os.Hostname()` returns and
`interfaces` what `net.Interfaces()` returns, `none` for an error. The result
is the address text and the host name. -/
def getIPAddress (hostname : Option String) (interfaces : Option (List NetInterface)) :
    String × String :=
  let host := hostname.getD "Unknown"
  match interfaces with
  | none => ("N/A", host)
  | some is =>
    match scanInterfaces is with
    | some text => (text, host)
    | none => ("N/A", host)

/-- The two slices page 2 of the main loop draws, `ipAddress[:8]` and
`ipAddress[8:]`; `none` when a slice expression panics. -/
def page2Text (ipAddress : List UInt8) : Option (List UInt8 × List UInt8) :=
  match slice ipAddress 0 8 with
  | none => none
  | some head =>
    match slice ipAddress 8 ipAddress.length with
    | none => none
    | some tail => some (head, tail)

/-! ## Concrete inputs used in the examples -/

/-- A sensor error message of 40 bytes. -/
def errorText40 : String := "communication error: bad checksum values"

/-- A host with one `wlan0` interface whose address is 10.0.0.5. -/
def wlanShort : List NetInterface :=
  [{ name := "lo", addrs := some [some { a := 127, b := 0, c := 0, d := 1 }] },
    { name := "wlan0", addrs := some [none, some { a := 10, b := 0, c := 0, d := 5 }] }]

/-- A host with one `eth0` interface whose address is 1.2.3.4. -/
def ethTiny : List NetInterface :=
  [{ name := "eth0", addrs := some [some { a := 1, b := 2, c := 3, d := 4 }] }]

/-- A host with one `eth0` interface whose address is 192.168.1.20. -/
def ethLong : List NetInterface :=
  [{ name := "eth0", addrs := some [some { a := 192, b := 168, c := 1, d := 20 }] }]

/-- Pin levels at process start: every line low. -/
def allLow : String → Bool := fun _ => false

/-- Case table that leaves every rune outside ASCII unchanged except the
Kelvin sign, which Unicode lowers to `k`. -/
def kelvinTable : Char → Char := fun c => if c.toNat = 8490 then 'k' else c

/-- The `.env` of the scenario: autoplay on, 3 s per page, start on page 2. -/
def cfgScenario : Config := [("SLEEP_TIME", "3"), ("ON_LOOP", "true"), ("DEFAULT_PAGE", "2")]

/-- A `.env` with values that are neither integers nor spellings of `true`. -/
def cfgGarbled : Config :=
  [("DEFAULT_PAGE", "two"), ("SLEEP_TIME", "3s"), ("BUTTON_PAGE", "4.0"),
    ("SHOW_LOGO", "yes"), ("SHOW_DHT", "TRUE"), ("ON_LOOP", "1")]

/-- A `.env` that only sets `DEFAULT_PAGE=9`. -/
def cfgPage9 : Config := [("DEFAULT_PAGE", "9")]

/-! ## Invariant of the reachable states -/

/-- What every state reached from `initState` satisfies: the last page is 6,
the jump page is the one computed from the current configuration, and the
LED level equals `onLoop`. -/
structure Inv (s : State) : Prop where
  stepEnd_eq : s.stepEnd = 6
  buttonPage_eq : s.buttonPage = setButtonPage s.envConfig 6
  led_eq : s.ledActive = s.onLoop

theorem inv_initState (tbl : Char → Char) (file : Option Config) (lv0 : String → Bool) :
    Inv (initState tbl file lv0) := by
  constructor
  · simp only [initState, initGPIO]; split <;> rfl
  · simp only [initState, initGPIO]; split <;> rfl
  · simp only [initState, initGPIO, State.ledActive]
    split <;> simp_all [pinOut]

theorem inv_stopLoop {s : State} (h : Inv s) : Inv (stopLoop s) := by
  obtain ⟨h1, h2, _⟩ := h
  exact ⟨h1, h2, by simp [stopLoop, State.ledActive, pinOut]⟩

theorem inv_press {s : State} (b : Button) (h : Inv s) : Inv (press b s) := by
  obtain ⟨h1, h2, h3⟩ := h
  cases b
  · simp only [press]
    split <;> exact inv_stopLoop ⟨h1, h2, h3⟩
  · simp only [press]
    split <;> exact inv_stopLoop ⟨h1, h2, h3⟩
  · exact inv_stopLoop ⟨h1, h2, h3⟩
  · simp only [press]
    split
    · next hon => exact ⟨h1, h2, by simp_all [State.ledActive, pinOut]⟩
    · exact ⟨h1, h2, by simp [stopLoop, State.ledActive, pinOut]⟩

theorem inv_tickEnd {s : State} (h : Inv s) : Inv (tickEnd s) := by
  obtain ⟨h1, h2, h3⟩ := h
  simp only [tickEnd]
  split <;> split <;> exact ⟨h1, h2, h3⟩

theorem inv_mainLoopIter {s s1 : State} (ok : Bool) (h : Inv s)
    (hs : mainLoopIter ok s = some s1) : Inv s1 := by
  obtain ⟨h1, h2, h3⟩ := h
  simp only [mainLoopIter] at hs
  split at hs
  · simp only [Option.some.injEq] at hs
    subst hs
    split <;> exact ⟨h1, h2, h3⟩
  · split at hs
    · split at hs
      · split at hs
        · simp only [Option.some.injEq] at hs
          subst hs
          exact inv_tickEnd ⟨h1, h2, h3⟩
        · exact absurd hs (by simp)
      · simp only [Option.some.injEq] at hs
        subst hs
        exact ⟨h1, h2, h3⟩
    · simp only [Option.some.injEq] at hs
      subst hs
      exact inv_tickEnd ⟨h1, h2, h3⟩

theorem inv_reload (tbl : Char → Char) (file : Option Config) {s : State} (h : Inv s) :
    Inv (reload tbl file s) := by
  obtain ⟨h1, _, _⟩ := h
  constructor
  · simp only [reload, applyConfig, initGPIO]; split <;> exact h1
  · simp only [reload, applyConfig, initGPIO]; split <;> simp [h1]
  · simp only [reload, applyConfig, initGPIO, State.ledActive]
    split <;> simp_all [pinOut]

theorem inv_step (tbl : Char → Char) {s s1 : State} (e : Event) (h : Inv s)
    (hs : step tbl s e = some s1) : Inv s1 := by
  cases e with
  | reload file =>
    simp only [step, Option.some.injEq] at hs
    subst hs
    exact inv_reload tbl file h
  | press b =>
    simp only [step, Option.some.injEq] at hs
    subst hs
    exact inv_press b h
  | pause =>
    simp only [step, Option.some.injEq] at hs
    subst hs
    exact inv_stopLoop h
  | tick ok => exact inv_mainLoopIter ok h hs

theorem inv_run (tbl : Char → Char) (es : List Event) :
    ∀ {s s1 : State}, Inv s → run tbl s es = some s1 → Inv s1 := by
  induction es with
  | nil =>
    intro s s1 h hs
    simp only [run, Option.some.injEq] at hs
    subst hs
    exact h
  | cons e es ih =>
    intro s s1 h hs
    simp only [run] at hs
    cases hstep : step tbl s e with
    | none => simp [hstep] at hs
    | some s2 =>
      rw [hstep] at hs
      exact ih (inv_step tbl e h hstep) hs

/-- The jump page computed by `setButtonPage` with last page 6 is in `[1, 6]`. -/
theorem setButtonPage_range (cfg : Config) :
    1 ≤ setButtonPage cfg 6 ∧ setButtonPage cfg 6 ≤ 6 := by
  unfold setButtonPage
  split
  · omega
  · split
    · omega
    · split <;> omega

/-- The jump page computed from an integer `BUTTON_PAGE` is that integer
clamped into `[1, 6]`. -/
theorem setButtonPage_clamp (cfg : Config) (p : Int)
    (hp : atoi (cfg.get "BUTTON_PAGE") = some p) :
    setButtonPage cfg 6 = max 1 (min p 6) := by
  unfold setButtonPage
  rw [hp]
  simp only
  split
  · omega
  · split <;> omega

/-- A button press writes none of `stepEnd`, `buttonPage`, `firstRun`. -/
theorem press_fields (b : Button) (s : State) :
    (press b s).stepEnd = s.stepEnd ∧ (press b s).buttonPage = s.buttonPage ∧
      (press b s).firstRun = s.firstRun := by
  cases b
  · by_cases h : s.stepBy ≤ 1
    · simp [press, stopLoop, h]
    · simp [press, stopLoop, h]
  · by_cases h : s.stepBy ≥ s.stepEnd
    · simp [press, stopLoop, h]
    · simp [press, stopLoop, h]
  · simp [press, stopLoop]
  · by_cases h : s.onLoop = true
    · simp [press, stopLoop, h]
    · simp [press, stopLoop, h]

/-- The page a button press leaves. -/
theorem press_stepBy (b : Button) (s : State) :
    (press b s).stepBy =
      match b with
      | .button1 => if s.stepBy ≤ 1 then s.stepEnd else wrapInt (s.stepBy - 1)
      | .button2 => if s.stepBy ≥ s.stepEnd then 1 else wrapInt (s.stepBy + 1)
      | .button3 => s.buttonPage
      | .button4 => s.stepBy := by
  cases b
  · by_cases h : s.stepBy ≤ 1
    · simp [press, stopLoop, h]
    · simp [press, stopLoop, h]
  · by_cases h : s.stepBy ≥ s.stepEnd
    · simp [press, stopLoop, h]
    · simp [press, stopLoop, h]
  · simp [press, stopLoop]
  · by_cases h : s.onLoop = true
    · simp [press, stopLoop, h]
    · simp [press, stopLoop, h]

/-- One previous/next press keeps the page inside `[1, stepEnd]`. -/
theorem press_nav_range (s : State) (b : Button)
    (hInt : s.stepEnd ≤ maxInt) (hLo : 1 ≤ s.stepBy) (hHi : s.stepBy ≤ s.stepEnd)
    (hb : b = .button1 ∨ b = .button2) :
    1 ≤ (press b s).stepBy ∧ (press b s).stepBy ≤ s.stepEnd ∧
      (press b s).stepEnd = s.stepEnd := by
  unfold maxInt at hInt
  rcases hb with rfl | rfl
  · by_cases h : s.stepBy ≤ 1
    · have e1 : (press Button.button1 s).stepBy = s.stepEnd := by simp [press, stopLoop, h]
      have e2 : (press Button.button1 s).stepEnd = s.stepEnd := by simp [press, stopLoop, h]
      rw [e1, e2]; omega
    · have e1 : (press Button.button1 s).stepBy = wrapInt (s.stepBy - 1) := by
        simp [press, stopLoop, h]
      have e2 : (press Button.button1 s).stepEnd = s.stepEnd := by simp [press, stopLoop, h]
      rw [e1, e2]; unfold wrapInt; omega
  · by_cases h : s.stepBy ≥ s.stepEnd
    · have e1 : (press Button.button2 s).stepBy = 1 := by simp [press, stopLoop, h]
      have e2 : (press Button.button2 s).stepEnd = s.stepEnd := by simp [press, stopLoop, h]
      rw [e1, e2]; omega
    · have e1 : (press Button.button2 s).stepBy = wrapInt (s.stepBy + 1) := by
        simp [press, stopLoop, h]
      have e2 : (press Button.button2 s).stepEnd = s.stepEnd := by simp [press, stopLoop, h]
      rw [e1, e2]; unfold wrapInt; omega

/-! ## Page navigation -/

/-- C1: for every start page in `[1, stepEnd]` (so the last page `stepEnd`
is at least 1; it is a Go `int`), any finite sequence of Button 1 (previous) and Button 2 (next)
presses leaves `stepBy` in `[1, stepEnd]`; next on the last page gives page 1
and previous on page 1 gives the last page. -/
theorem nav_keeps_page_in_range (s : State) (bs : List Button)
    (hInt : s.stepEnd ≤ maxInt)
    (hLo : 1 ≤ s.stepBy) (hHi : s.stepBy ≤ s.stepEnd)
    (hNav : ∀ b ∈ bs, b = Button.button1 ∨ b = Button.button2) :
    (1 ≤ (pressAll bs s).stepBy ∧ (pressAll bs s).stepBy ≤ s.stepEnd ∧
        (pressAll bs s).stepEnd = s.stepEnd) ∧
      (s.stepBy = s.stepEnd → (press Button.button2 s).stepBy = 1) ∧
      (s.stepBy = 1 → (press Button.button1 s).stepBy = s.stepEnd) := by
  refine ⟨?_, ?_, ?_⟩
  · induction bs generalizing s with
    | nil => exact ⟨hLo, hHi, rfl⟩
    | cons b bs ih =>
      have hb := hNav b (List.mem_cons_self b bs)
      obtain ⟨h1, h2, h3⟩ := press_nav_range s b hInt hLo hHi hb
      have hrest := ih (press b s) (by rw [h3]; exact hInt) h1 (by rw [h3]; exact h2)
        (fun c hc => hNav c (List.mem_cons_of_mem b hc))
      rw [h3] at hrest
      exact hrest
  · intro h
    simp [press, stopLoop, h]
  · intro h
    simp [press, stopLoop, h]

/-- Witness for C1 with last page 6: start on page 6, press next, previous,
previous. -/
theorem nav_keeps_page_in_range_witness :
    (pressAll [Button.button2, Button.button1, Button.button1]
        (initState kelvinTable (some [("DEFAULT_PAGE", "6")]) allLow)).stepBy = 5 ∧
      (press Button.button2
        (initState kelvinTable (some [("DEFAULT_PAGE", "6")]) allLow)).stepBy = 1 ∧
      (1 ≤ (pressAll [Button.button2, Button.button1, Button.button1]
        (initState kelvinTable (some [("DEFAULT_PAGE", "6")]) allLow)).stepBy ∧
       (pressAll [Button.button2, Button.button1, Button.button1]
        (initState kelvinTable (some [("DEFAULT_PAGE", "6")]) allLow)).stepBy ≤ 6) :=
  have h := nav_keeps_page_in_range
    (initState kelvinTable (some [("DEFAULT_PAGE", "6")]) allLow)
    [Button.button2, Button.button1, Button.button1]
    (by decide) (by decide) (by decide) (by decide)
  ⟨by decide, h.2.1 (by decide), h.1.1, h.1.2.1⟩

/-- C2: with last page 6, `setButtonPage` returns a page in `[1, 6]` for every
configuration map, an integer `BUTTON_PAGE` value `p` gives `p` clamped into
`[1, 6]`, and in every state reached from `initState` a Button 3 press sets
`stepBy` to the jump page of the current configuration, which is in
`[1, stepEnd]`. -/
theorem jump_page_in_range (tbl : Char → Char) (file : Option Config)
    (lv0 : String → Bool) (es : List Event) (s : State) (cfg : Config)
    (hrun : run tbl (initState tbl file lv0) es = some s) :
    (1 ≤ setButtonPage cfg 6 ∧ setButtonPage cfg 6 ≤ 6) ∧
      (∀ p : Int, atoi (cfg.get "BUTTON_PAGE") = some p →
        setButtonPage cfg 6 = max 1 (min p 6)) ∧
      (press Button.button3 s).stepBy = setButtonPage s.envConfig 6 ∧
      1 ≤ (press Button.button3 s).stepBy ∧
      (press Button.button3 s).stepBy ≤ (press Button.button3 s).stepEnd ∧
      (press Button.button3 s).stepEnd = 6 := by
  have hinv := inv_run tbl es (inv_initState tbl file lv0) hrun
  have hr := setButtonPage_range s.envConfig
  have hpage : (press Button.button3 s).stepBy = setButtonPage s.envConfig 6 := by
    simp [press, stopLoop, hinv.buttonPage_eq]
  have hend : (press Button.button3 s).stepEnd = 6 := by
    simp [press, stopLoop, hinv.stepEnd_eq]
  refine ⟨setButtonPage_range cfg, fun p hp => setButtonPage_clamp cfg p hp, hpage, ?_, ?_, hend⟩
  · rw [hpage]; exact hr.1
  · rw [hpage, hend]; exact hr.2

/-- Witness for C2: `BUTTON_PAGE=9` is clamped to 6, also after a reload that
sets `BUTTON_PAGE=-3` the jump lands on page 1. -/
theorem jump_page_in_range_witness :
    run kelvinTable (initState kelvinTable (some [("BUTTON_PAGE", "9")]) allLow)
        [Event.reload (some [("BUTTON_PAGE", "-3")])] =
      some (reload kelvinTable (some [("BUTTON_PAGE", "-3")])
        (initState kelvinTable (some [("BUTTON_PAGE", "9")]) allLow)) ∧
      setButtonPage [("BUTTON_PAGE", "9")] 6 = 6 ∧
      (press Button.button3 (reload kelvinTable (some [("BUTTON_PAGE", "-3")])
        (initState kelvinTable (some [("BUTTON_PAGE", "9")]) allLow))).stepBy = 1 :=
  have h := jump_page_in_range kelvinTable (some [("BUTTON_PAGE", "9")]) allLow
    [Event.reload (some [("BUTTON_PAGE", "-3")])]
    (reload kelvinTable (some [("BUTTON_PAGE", "-3")])
      (initState kelvinTable (some [("BUTTON_PAGE", "9")]) allLow))
    [("BUTTON_PAGE", "9")] rfl
  ⟨rfl, (h.2.1 9 (by decide)).trans (by decide), h.2.2.1.trans (by decide)⟩

/-- C3: Button 1, 2 or 3 leaves `onLoop = false` and `sleepTime` at one
second, in particular when `onLoop` was true; a Button 4 press right after
leaves `onLoop = true` and `sleepTime = originalSleep`, the value
`originalSleep` had before the navigation. -/
theorem manual_nav_pauses_autoplay (s : State) (b : Button)
    (hb : b = Button.button1 ∨ b = Button.button2 ∨ b = Button.button3)
    (_hAuto : s.onLoop = true) :
    (press b s).onLoop = false ∧ (press b s).sleepTime = 1 * second ∧
      (press Button.button4 (press b s)).onLoop = true ∧
      (press Button.button4 (press b s)).sleepTime =
        (press Button.button4 (press b s)).originalSleep ∧
      (press Button.button4 (press b s)).originalSleep = s.originalSleep := by
  rcases hb with rfl | rfl | rfl
  · simp only [press]
    split <;> simp [stopLoop]
  · simp only [press]
    split <;> simp [stopLoop]
  · simp [press, stopLoop]

/-- Witness for C3: autoplay on with `SLEEP_TIME=7`, then Button 2, then
Button 4. -/
theorem manual_nav_pauses_autoplay_witness :
    (initState kelvinTable (some [("ON_LOOP", "true"), ("SLEEP_TIME", "7")]) allLow).onLoop
        = true ∧
      (press Button.button2
        (initState kelvinTable (some [("ON_LOOP", "true"), ("SLEEP_TIME", "7")])
          allLow)).sleepTime = 1000000000 ∧
      (press Button.button4 (press Button.button2
        (initState kelvinTable (some [("ON_LOOP", "true"), ("SLEEP_TIME", "7")])
          allLow))).sleepTime = 7000000000 :=
  have h := manual_nav_pauses_autoplay
    (initState kelvinTable (some [("ON_LOOP", "true"), ("SLEEP_TIME", "7")]) allLow)
    Button.button2 (Or.inr (Or.inl rfl)) (by decide)
  ⟨by decide, h.2.1.trans (by decide), (h.2.2.2.1.trans h.2.2.2.2).trans (by decide)⟩

/-! ## End of a tick -/

/-- Counterexample to C4: with `DEFAULT_PAGE=9` and autoplay off the boot pass
leaves page 9, and the page update after the tick sleep changes it to 1
although `onLoop` is false. -/
theorem tickEnd_changes_page_while_paused :
    (run kelvinTable (initState kelvinTable (some cfgPage9) allLow) [Event.tick true]).map
      (fun s => (s.onLoop, s.stepBy, s.stepEnd, (tickEnd s).stepBy)) =
      some (false, 9, 6, 1) := by
  decide

/-- C4 (amended): for a page below the largest `int`, the page update after
the tick sleep gives `stepBy + 1`, or 1 when that exceeds `stepEnd`, if
`onLoop` is true; if `onLoop` is false it leaves `stepBy` unchanged when
`stepBy <= stepEnd` (then the whole state is unchanged) and resets it to 1
when `stepBy > stepEnd`. -/
theorem tickEnd_page (s : State) (hInt : InInt s.stepBy)
    (hMax : s.onLoop = true → s.stepBy < maxInt) :
    (s.onLoop = true →
        (tickEnd s).stepBy = if s.stepBy + 1 > s.stepEnd then 1 else s.stepBy + 1) ∧
      (s.onLoop = false →
        (tickEnd s).stepBy = if s.stepBy > s.stepEnd then 1 else s.stepBy) ∧
      (s.onLoop = false → s.stepBy ≤ s.stepEnd → tickEnd s = s) := by
  unfold InInt minInt maxInt at *
  refine ⟨?_, ?_, ?_⟩
  · intro h
    have hw : wrapInt (s.stepBy + 1) = s.stepBy + 1 := by
      have := hMax h
      unfold wrapInt; omega
    simp only [tickEnd, h, if_true, hw]
    split <;> rfl
  · intro h
    by_cases hgt : s.stepBy > s.stepEnd
    · simp [tickEnd, h, hgt]
    · simp [tickEnd, h, hgt]
  · intro h hle
    have hn : ¬ s.stepBy > s.stepEnd := by omega
    simp [tickEnd, h, hn]

/-- Witness for C4 (amended): autoplay on the last page wraps to page 1. -/
theorem tickEnd_page_witness :
    (initState kelvinTable (some [("ON_LOOP", "true"), ("DEFAULT_PAGE", "6")]) allLow).onLoop
        = true ∧
      (tickEnd (initState kelvinTable (some [("ON_LOOP", "true"), ("DEFAULT_PAGE", "6")])
        allLow)).stepBy = 1 :=
  have h := tickEnd_page
    (initState kelvinTable (some [("ON_LOOP", "true"), ("DEFAULT_PAGE", "6")]) allLow)
    (by decide) (by decide)
  ⟨by decide, (h.1 (by decide)).trans (by decide)⟩

/-- On the largest `int` the increment of the page update wraps to the
smallest `int`, which is not above `stepEnd`. -/
theorem tickEnd_wraps_at_maxInt :
    (tickEnd (initState kelvinTable
      (some [("ON_LOOP", "true"), ("DEFAULT_PAGE", "9223372036854775807")]) allLow)).stepBy =
      minInt := by
  decide

/-! ## Indicator LED -/

/-- C5: in every state reached from `initState` (which ends with `initGPIO`)
by config reloads, button presses, `stopLoop` and main-loop passes, each taken
as one step, the LED is lit if and only if `onLoop` is true. -/
theorem led_follows_autoplay (tbl : Char → Char) (file : Option Config)
    (lv0 : String → Bool) (es : List Event) (s : State)
    (hrun : run tbl (initState tbl file lv0) es = some s) :
    s.ledActive = true ↔ s.onLoop = true := by
  have hinv := inv_run tbl es (inv_initState tbl file lv0) hrun
  rw [hinv.led_eq]

/-- Witness for C5: start with autoplay on, reload a file that moves the LED
to another pin and turns autoplay off, toggle, then pause. -/
theorem led_follows_autoplay_witness :
    run kelvinTable (initState kelvinTable (some [("ON_LOOP", "true")]) allLow)
        [Event.reload (some [("GPIO_LED1", "GPIO19")]), Event.press Button.button4,
          Event.pause] =
      some (stopLoop (press Button.button4 (reload kelvinTable (some [("GPIO_LED1", "GPIO19")])
        (initState kelvinTable (some [("ON_LOOP", "true")]) allLow)))) ∧
      ((stopLoop (press Button.button4 (reload kelvinTable (some [("GPIO_LED1", "GPIO19")])
        (initState kelvinTable (some [("ON_LOOP", "true")]) allLow)))).ledActive = true ↔
       (stopLoop (press Button.button4 (reload kelvinTable (some [("GPIO_LED1", "GPIO19")])
        (initState kelvinTable (some [("ON_LOOP", "true")]) allLow)))).onLoop = true) :=
  ⟨rfl, led_follows_autoplay kelvinTable (some [("ON_LOOP", "true")]) allLow
    [Event.reload (some [("GPIO_LED1", "GPIO19")]), Event.press Button.button4, Event.pause]
    _ rfl⟩

/-! ## Page 0 after the boot phase -/

/-- Counterexample to C6: with `SLEEP_TIME=3` the boot pass moves from page 0
to page 1; a later reload of a file that sets `SLEEP_TIME=5` puts `stepBy`
back to 0. -/
theorem reload_returns_to_page0 :
    (run kelvinTable (initState kelvinTable (some [("SLEEP_TIME", "3")]) allLow)
        [Event.tick true]).map (fun s => (s.firstRun, s.stepBy)) = some (false, 1) ∧
      (run kelvinTable (initState kelvinTable (some [("SLEEP_TIME", "3")]) allLow)
        [Event.tick true, Event.reload (some [("SLEEP_TIME", "5")])]).map
        (fun s => (s.firstRun, s.stepBy)) = some (false, 0) := by
  decide

/-- The page update after the tick sleep only writes `stepBy`. -/
theorem tickEnd_fields (s : State) :
    (tickEnd s).stepEnd = s.stepEnd ∧ (tickEnd s).buttonPage = s.buttonPage ∧
      (tickEnd s).firstRun = s.firstRun ∧ (tickEnd s).onLoop = s.onLoop := by
  unfold tickEnd
  by_cases hon : s.onLoop = true
  · by_cases hgt : wrapInt (s.stepBy + 1) > s.stepEnd
    · simp [hon, hgt]
    · simp [hon, hgt]
  · by_cases hgt : s.stepBy > s.stepEnd
    · simp [hon, hgt]
    · simp [hon, hgt]

/-- The page written by the page update after the tick sleep. -/
theorem tickEnd_stepBy (s : State) :
    (tickEnd s).stepBy =
      if (if s.onLoop = true then wrapInt (s.stepBy + 1) else s.stepBy) > s.stepEnd then 1
      else (if s.onLoop = true then wrapInt (s.stepBy + 1) else s.stepBy) := by
  unfold tickEnd
  by_cases hon : s.onLoop = true
  · by_cases hgt : wrapInt (s.stepBy + 1) > s.stepEnd
    · simp [hon, hgt]
    · simp [hon, hgt]
  · by_cases hgt : s.stepBy > s.stepEnd
    · simp [hon, hgt]
    · simp [hon, hgt]

/-- A step other than a reload keeps a page that is at least 1 (and, like the
jump page, at most 6) in `[1, 6]` and keeps `firstRun` false. -/
theorem content_step (tbl : Char → Char) {s s1 : State} (e : Event)
    (hEnd : s.stepEnd = 6) (hJump : 1 ≤ s.buttonPage ∧ s.buttonPage ≤ 6)
    (hPage : 1 ≤ s.stepBy) (hMax : s.stepBy < maxInt) (hBoot : s.firstRun = false)
    (he : e.isReload = false) (hs : step tbl s e = some s1) :
    s1.stepEnd = 6 ∧ (1 ≤ s1.buttonPage ∧ s1.buttonPage ≤ 6) ∧ 1 ≤ s1.stepBy ∧
      s1.stepBy < maxInt ∧ s1.firstRun = false := by
  unfold maxInt at *
  have hw1 : wrapInt (s.stepBy + 1) = s.stepBy + 1 := by unfold wrapInt; omega
  have hw2 : wrapInt (s.stepBy - 1) = s.stepBy - 1 := by unfold wrapInt; omega
  have htick : (tickEnd s).stepEnd = 6 ∧
      (1 ≤ (tickEnd s).buttonPage ∧ (tickEnd s).buttonPage ≤ 6) ∧ 1 ≤ (tickEnd s).stepBy ∧
      (tickEnd s).stepBy < 9223372036854775807 ∧ (tickEnd s).firstRun = false := by
    obtain ⟨f1, f2, f3, _⟩ := tickEnd_fields s
    rw [f1, f2, f3, tickEnd_stepBy, hw1, hEnd]
    refine ⟨rfl, hJump, ?_, ?_, hBoot⟩
    · split_ifs <;> omega
    · split_ifs <;> omega
  cases e with
  | reload file => simp [Event.isReload] at he
  | press b =>
    simp only [step, Option.some.injEq] at hs
    subst hs
    obtain ⟨f1, f2, f3⟩ := press_fields b s
    rw [f1, f2, f3, press_stepBy]
    refine ⟨hEnd, hJump, ?_, ?_, hBoot⟩
    · cases b <;> simp only [hw1, hw2, hEnd] <;> omega
    · cases b <;> simp only [hw1, hw2, hEnd] <;> omega
  | pause =>
    simp only [step, Option.some.injEq] at hs
    subst hs
    simp [stopLoop, hEnd, hJump, hBoot, hPage, hMax]
  | tick ok =>
    have h0 : ¬ (s.stepBy = 0 ∨ s.firstRun = true) := by
      rw [hBoot]; simp; omega
    simp only [step, mainLoopIter, h0, if_false] at hs
    by_cases h1 : s.stepBy = 1
    · by_cases hd : s.showDHT = true
      · by_cases hok : ok = true
        · simp [h1, hd, hok] at hs
          subst hs
          exact htick
        · simp [h1, hd, hok] at hs
      · simp [h1, hd] at hs
        subst hs
        simp [hEnd, hJump, hBoot, h1, wrapInt]
    · simp [h1] at hs
      subst hs
      exact htick

/-- A run without reloads keeps a page that is at least 1 in `[1, 6]`. -/
theorem content_run (tbl : Char → Char) (es : List Event) :
    ∀ {s s1 : State}, s.stepEnd = 6 → (1 ≤ s.buttonPage ∧ s.buttonPage ≤ 6) →
      1 ≤ s.stepBy → s.stepBy < maxInt → s.firstRun = false →
      (∀ e ∈ es, e.isReload = false) → run tbl s es = some s1 →
      s1.stepEnd = 6 ∧ (1 ≤ s1.buttonPage ∧ s1.buttonPage ≤ 6) ∧ 1 ≤ s1.stepBy ∧
        s1.stepBy < maxInt ∧ s1.firstRun = false := by
  induction es with
  | nil =>
    intro s s1 h1 h2 h3 h4 h5 _ hs
    simp only [run, Option.some.injEq] at hs
    subst hs
    exact ⟨h1, h2, h3, h4, h5⟩
  | cons e es ih =>
    intro s s1 h1 h2 h3 h4 h5 hno hs
    simp only [run] at hs
    cases hstep : step tbl s e with
    | none => simp [hstep] at hs
    | some s2 =>
      rw [hstep] at hs
      obtain ⟨a1, a2, a3, a4, a5⟩ :=
        content_step tbl e h1 h2 h3 h4 h5 (hno e (List.mem_cons_self e es)) hstep
      exact ih a1 a2 a3 a4 a5 (fun c hc => hno c (List.mem_cons_of_mem e hc)) hs

/-- The page after a reload is the `DEFAULT_PAGE` of the file just read. -/
theorem reload_stepBy (tbl : Char → Char) (file : Option Config) (s : State) :
    (reload tbl file s).stepBy = defaultPage (loadEnv file) ∧
      (reload tbl file s).firstRun = s.firstRun := by
  simp only [reload, applyConfig, initGPIO]
  split <;> exact ⟨rfl, rfl⟩

/-- C6 (amended): in a state reached from `initState` after the boot phase
(`firstRun` false, page at least 1 and below the largest `int`), no sequence of
main-loop passes and button transitions sets `stepBy` back to 0; it stays at
least 1. A configuration reload applies the initial page every time: it sets
`stepBy` to the `DEFAULT_PAGE` of the file read, which may be 0, and the next
main-loop pass then moves from page 0 to page 1 without playing the logo. -/
theorem page0_only_through_reload (tbl : Char → Char) (cfg0 : Option Config)
    (lv0 : String → Bool) (pre es : List Event) (s s1 : State)
    (hreach : run tbl (initState tbl cfg0 lv0) pre = some s)
    (hBoot : s.firstRun = false) (hPage : 1 ≤ s.stepBy) (hMax : s.stepBy < maxInt)
    (hNo : ∀ e ∈ es, e.isReload = false) (hrun : run tbl s es = some s1) :
    (1 ≤ s1.stepBy ∧ s1.firstRun = false) ∧
      (∀ file : Option Config,
        (reload tbl file s1).stepBy = defaultPage (loadEnv file) ∧
        (defaultPage (loadEnv file) = 0 →
          ∀ ok : Bool, playsLogo (reload tbl file s1) = false ∧
            (mainLoopIter ok (reload tbl file s1)).map (fun t => t.stepBy) = some 1)) := by
  have hinv := inv_run tbl pre (inv_initState tbl cfg0 lv0) hreach
  have hjump : 1 ≤ s.buttonPage ∧ s.buttonPage ≤ 6 := by
    rw [hinv.buttonPage_eq]
    exact setButtonPage_range s.envConfig
  obtain ⟨_, _, a3, _, a5⟩ :=
    content_run tbl es hinv.stepEnd_eq hjump hPage hMax hBoot hNo hrun
  refine ⟨⟨a3, a5⟩, fun file => ?_⟩
  obtain ⟨r1, r2⟩ := reload_stepBy tbl file s1
  refine ⟨r1, fun h0 ok => ?_⟩
  have rs : (reload tbl file s1).stepBy = 0 := by rw [r1, h0]
  have rf : (reload tbl file s1).firstRun = false := by rw [r2, a5]
  constructor
  · simp [playsLogo, rf]
  · simp [mainLoopIter, rs, wrapInt]

/-- Witness for C6 (amended): after the boot pass on an empty configuration,
Button 2 and a main-loop pass keep the page at 2. -/
theorem page0_only_through_reload_witness :
    run kelvinTable (initState kelvinTable (some []) allLow) [Event.tick true] =
        some { initState kelvinTable (some []) allLow with stepBy := 1, firstRun := false } ∧
      1 ≤ (tickEnd (press Button.button2
        { initState kelvinTable (some []) allLow with stepBy := 1, firstRun := false })).stepBy :=
  have h := page0_only_through_reload kelvinTable (some []) allLow [Event.tick true]
    [Event.press Button.button2, Event.tick true]
    { initState kelvinTable (some []) allLow with stepBy := 1, firstRun := false }
    (tickEnd (press Button.button2
      { initState kelvinTable (some []) allLow with stepBy := 1, firstRun := false }))
    rfl rfl (by decide) (by decide)
    (by intro e he; simp only [List.mem_cons, List.mem_singleton, List.mem_nil_iff, or_false] at he
        rcases he with rfl | rfl <;> rfl)
    rfl
  ⟨rfl, h.1.1⟩

/-! ## Duplicate write notifications -/

/-- Counterexample to C7: write notifications on `.env` at 0 ms, 600 ms and
1200 ms. The third comes 600 ms after the second, yet it triggers a reload:
the second was discarded and did not restart the window. -/
theorem third_write_reloads_within_window :
    (envWriteAt 1200).name = (envWriteAt 600).name ∧
      (envWriteAt 1200).now - (envWriteAt 600).now < 1000 * millisecond ∧
      (monitorEnvFile freshWatch [envWriteAt 0, envWriteAt 600, envWriteAt 1200]).2 =
        [true, false, true] := by
  decide

/-- Comparing the saturated difference with one second is comparing the
difference itself. -/
theorem timeSub_lt_second (now u : Int) :
    timeSub now (some u) < 1000 * millisecond ↔ now - u < 1000 * millisecond := by
  simp only [timeSub, minInt, maxInt, millisecond]
  split_ifs <;> omega

/-- An event that triggers a reload becomes the remembered write. -/
theorem onEvent_reload {w : WatchState} {e : FsEvent} (h : (onEvent w e).2 = true) :
    (onEvent w e).1 = { lastWriteTime := some e.now, lastWriteFile := e.name } := by
  unfold onEvent at h ⊢
  split_ifs at h ⊢
  all_goals simp_all

/-- An event that triggers no reload leaves the locals as they were. -/
theorem onEvent_discard {w : WatchState} {e : FsEvent} (h : (onEvent w e).2 = false) :
    (onEvent w e).1 = w := by
  unfold onEvent at h ⊢
  split_ifs at h ⊢ <;> simp_all

/-- A run of events none of which triggers a reload leaves the locals as they
were. -/
theorem monitorEnvFile_discard (es : List FsEvent) :
    ∀ w : WatchState, (∀ d ∈ (monitorEnvFile w es).2, d = false) →
      (monitorEnvFile w es).1 = w := by
  induction es with
  | nil => intro w _; rfl
  | cons e es ih =>
    intro w h
    simp only [monitorEnvFile, List.mem_cons, forall_eq_or_imp] at h ⊢
    rw [onEvent_discard h.1] at h ⊢
    exact ih w h.2

/-- C7 (amended): the window is measured from the last notification that
triggered a reload. After a notification `e` that triggered a reload and any
run `mids` of discarded ones, a write notification `m` is discarded exactly
when it is for the same path as `e` and is read less than 1000 ms after `e`;
and a watcher that starts with two write notifications for one path less than
1000 ms apart reloads for the first and discards the second, one reload. -/
theorem dedup_window (w : WatchState) (e m : FsEvent) (mids : List FsEvent)
    (he : (onEvent w e).2 = true)
    (hmids : ∀ d ∈ (monitorEnvFile (onEvent w e).1 mids).2, d = false)
    (hm : m.write = true) :
    ((onEvent (monitorEnvFile (onEvent w e).1 mids).1 m).2 = false ↔
        (m.name = e.name ∧ m.now - e.now < 1000 * millisecond)) ∧
      (∀ e1 e2 : FsEvent, e1.write = true → e2.write = true → e2.name = e1.name →
        e2.now - e1.now < 1000 * millisecond →
        (monitorEnvFile freshWatch [e1, e2]).2 = [true, false]) := by
  constructor
  · rw [monitorEnvFile_discard mids _ hmids, onEvent_reload he]
    simp only [onEvent, hm, if_true, timeSub_lt_second]
    split_ifs with h
    · simp [h]
    · simp [h]
  · intro e1 e2 h1 h2 hname hlt
    have hfirst : onEvent freshWatch e1 =
        ({ lastWriteTime := some e1.now, lastWriteFile := e1.name }, true) := by
      simp [onEvent, h1, freshWatch, timeSub, maxInt, millisecond]
    have hsecond : (onEvent { lastWriteTime := some e1.now, lastWriteFile := e1.name } e2).2 =
        false := by
      simp only [onEvent, h2, if_true, timeSub_lt_second]
      simp [hname, hlt]
    simp [monitorEnvFile, hfirst, hsecond]

/-- Witness for C7 (amended): writes at 0 ms, 300 ms and 600 ms; the third is
discarded, 600 ms after the one that reloaded. -/
theorem dedup_window_witness :
    (onEvent freshWatch (envWriteAt 0)).2 = true ∧
      (monitorEnvFile (onEvent freshWatch (envWriteAt 0)).1 [envWriteAt 300]).2 = [false] ∧
      (onEvent (monitorEnvFile (onEvent freshWatch (envWriteAt 0)).1 [envWriteAt 300]).1
        (envWriteAt 600)).2 = false ∧
      (monitorEnvFile freshWatch [envWriteAt 0, envWriteAt 600]).2 = [true, false] :=
  have h := dedup_window freshWatch (envWriteAt 0) (envWriteAt 600) [envWriteAt 300]
    (by decide) (by decide) rfl
  ⟨by decide, by decide, h.1.mpr (by decide),
    h.2 (envWriteAt 0) (envWriteAt 600) rfl rfl rfl (by decide)⟩

/-! ## Failed reload -/

/-- Counterexample to C8: with `ON_LOOP=true` and `SLEEP_TIME=7` loaded, a
reload whose read fails replaces the map by the empty one and turns autoplay
off, with the tick interval back at 3 s. -/
theorem failed_reload_changes_settings :
    (initState kelvinTable (some [("ON_LOOP", "true"), ("SLEEP_TIME", "7")]) allLow).onLoop
        = true ∧
      (initState kelvinTable (some [("ON_LOOP", "true"), ("SLEEP_TIME", "7")])
        allLow).sleepTime = 7 * second ∧
      (reload kelvinTable none
        (initState kelvinTable (some [("ON_LOOP", "true"), ("SLEEP_TIME", "7")])
          allLow)).envConfig = [] ∧
      (reload kelvinTable none
        (initState kelvinTable (some [("ON_LOOP", "true"), ("SLEEP_TIME", "7")])
          allLow)).onLoop = false ∧
      (reload kelvinTable none
        (initState kelvinTable (some [("ON_LOOP", "true"), ("SLEEP_TIME", "7")])
          allLow)).sleepTime = 3 * second := by
  decide

/-- C8 (amended): when the read of the configuration file fails during a hot
reload, the snapshot becomes the empty map and every derived value takes its
default: logo and sensor off, `DHT11` on pin `4`, autoplay off with the LED
off, page 0, tick interval 3 s, jump page 4, pins `GPIO17`, `GPIO27`,
`GPIO22`, `GPIO23` and `GPIO26`. -/
theorem failed_reload_gives_defaults (tbl : Char → Char) (s : State) :
    (reload tbl none s).envConfig = [] ∧
      (reload tbl none s).showLOGO = false ∧
      (reload tbl none s).showDHT = false ∧
      (reload tbl none s).DHTType = "DHT11" ∧
      (reload tbl none s).DHTPin = "4" ∧
      (reload tbl none s).onLoop = false ∧
      (reload tbl none s).ledActive = false ∧
      (reload tbl none s).stepBy = 0 ∧
      (reload tbl none s).sleepTime = 3 * second ∧
      (reload tbl none s).originalSleep = 3 * second ∧
      (reload tbl none s).buttonPage = 4 ∧
      (reload tbl none s).button1Pin = "GPIO17" ∧
      (reload tbl none s).button2Pin = "GPIO27" ∧
      (reload tbl none s).button3Pin = "GPIO22" ∧
      (reload tbl none s).button4Pin = "GPIO23" ∧
      (reload tbl none s).led1Pin = "GPIO26" := by
  have hlow : ∀ k : String, toLower tbl (Config.get [] k) ≠ "true" := by
    intro k
    simp [Config.get, toLower]
  have hpage : setButtonPage [] s.stepEnd = 4 := by
    simp [setButtonPage, Config.get, atoi]
  simp [reload, applyConfig, initGPIO, loadEnv, shouldShowLOGO, shouldShowDHT, shouldOnLoop,
    hlow, hpage, State.ledActive, pinOut]
  refine ⟨?_, ?_, ?_, ?_, ?_, ?_, ?_, ?_, ?_⟩ <;> decide

/-! ## Defaults of the configuration readers -/

set_option maxRecDepth 100000 in
/-- Which ASCII runes `Char.toLower` sends to `t`, `r`, `u` and `e`. -/
theorem lower_ascii_table : ∀ n : Nat, n < 128 →
    (((Char.ofNat n).toLower = 't' ↔ n = 116 ∨ n = 84) ∧
     ((Char.ofNat n).toLower = 'r' ↔ n = 114 ∨ n = 82) ∧
     ((Char.ofNat n).toLower = 'u' ↔ n = 117 ∨ n = 85) ∧
     ((Char.ofNat n).toLower = 'e' ↔ n = 101 ∨ n = 69)) := by
  decide

set_option maxRecDepth 100000 in
/-- Code points below 128 are runes. -/
theorem toNat_ofNat_ascii : ∀ n : Nat, n < 128 → (Char.ofNat n).toNat = n := by
  decide

/-- An ASCII rune is determined by its code point. -/
theorem char_eq_of_toNat (c : Char) (n : Nat) (hn : n < 128) :
    c.toNat = n ↔ c = Char.ofNat n := by
  constructor
  · intro h
    rw [← h, Char.ofNat_toNat]
  · intro h
    rw [h]
    exact toNat_ofNat_ascii n hn

/-- Which runes `toLowerRune` sends to `t`, `r`, `u` and `e`, when the case
table sends no rune outside ASCII to one of them. -/
theorem toLowerRune_true_letters (tbl : Char → Char)
    (htbl : ∀ c : Char, 128 ≤ c.toNat →
      tbl c ≠ 't' ∧ tbl c ≠ 'r' ∧ tbl c ≠ 'u' ∧ tbl c ≠ 'e') (c : Char) :
    (toLowerRune tbl c = 't' ↔ c = 't' ∨ c = 'T') ∧
      (toLowerRune tbl c = 'r' ↔ c = 'r' ∨ c = 'R') ∧
      (toLowerRune tbl c = 'u' ↔ c = 'u' ∨ c = 'U') ∧
      (toLowerRune tbl c = 'e' ↔ c = 'e' ∨ c = 'E') := by
  unfold toLowerRune
  by_cases h : c.toNat < 128
  · have ht := lower_ascii_table c.toNat h
    rw [Char.ofNat_toNat] at ht
    simp only [h, if_true]
    rw [char_eq_of_toNat c 116 (by decide), char_eq_of_toNat c 84 (by decide),
      char_eq_of_toNat c 114 (by decide), char_eq_of_toNat c 82 (by decide),
      char_eq_of_toNat c 117 (by decide), char_eq_of_toNat c 85 (by decide),
      char_eq_of_toNat c 101 (by decide), char_eq_of_toNat c 69 (by decide)] at ht
    exact ht
  · have hge : 128 ≤ c.toNat := by omega
    obtain ⟨h1, h2, h3, h4⟩ := htbl c hge
    simp only [h, if_false]
    have hne : ∀ n : Nat, n < 128 → c ≠ Char.ofNat n := by
      intro n hn hc
      have := (char_eq_of_toNat c n hn).mpr hc
      omega
    refine ⟨⟨fun e => absurd e h1, ?_⟩, ⟨fun e => absurd e h2, ?_⟩,
      ⟨fun e => absurd e h3, ?_⟩, ⟨fun e => absurd e h4, ?_⟩⟩
    · rintro (e | e)
      · exact absurd e (hne 116 (by decide))
      · exact absurd e (hne 84 (by decide))
    · rintro (e | e)
      · exact absurd e (hne 114 (by decide))
      · exact absurd e (hne 82 (by decide))
    · rintro (e | e)
      · exact absurd e (hne 117 (by decide))
      · exact absurd e (hne 85 (by decide))
    · rintro (e | e)
      · exact absurd e (hne 101 (by decide))
      · exact absurd e (hne 69 (by decide))

/-- The test `strings.ToLower(v) == "true"` holds exactly for the sixteen
spellings. -/
theorem toLower_eq_true_iff (tbl : Char → Char)
    (htbl : ∀ c : Char, 128 ≤ c.toNat →
      tbl c ≠ 't' ∧ tbl c ≠ 'r' ∧ tbl c ≠ 'u' ∧ tbl c ≠ 'e') (v : String) :
    decide (toLower tbl v = "true") = spellsTrue v := by
  have hdata : (toLower tbl v = "true") ↔ v.data.map (toLowerRune tbl) = ['t', 'r', 'u', 'e'] := by
    unfold toLower
    constructor
    · intro h
      exact congrArg String.data h
    · intro h
      rw [h]
  rw [Bool.eq_iff_iff, decide_eq_true_iff, hdata]
  unfold spellsTrue
  rcases hv : v.data with _ | ⟨a, _ | ⟨b, _ | ⟨c, _ | ⟨d, _ | ⟨e, rest⟩⟩⟩⟩⟩
  · simp
  · simp
  · simp
  · simp
  · have ha := (toLowerRune_true_letters tbl htbl a).1
    have hb := (toLowerRune_true_letters tbl htbl b).2.1
    have hc := (toLowerRune_true_letters tbl htbl c).2.2.1
    have hd := (toLowerRune_true_letters tbl htbl d).2.2.2
    simp [ha, hb, hc, hd, and_assoc]
  · simp

/-- The case table `kelvinTable` sends no rune outside ASCII to a letter of
`true`. -/
theorem kelvinTable_ok : ∀ c : Char, 128 ≤ c.toNat →
    kelvinTable c ≠ 't' ∧ kelvinTable c ≠ 'r' ∧ kelvinTable c ≠ 'u' ∧ kelvinTable c ≠ 'e' := by
  intro c hc
  have hne : ∀ n : Nat, n < 128 → c ≠ Char.ofNat n := by
    intro n hn h
    have := (char_eq_of_toNat c n hn).mpr h
    omega
  unfold kelvinTable
  split_ifs
  · decide
  · exact ⟨hne 116 (by decide), hne 114 (by decide), hne 117 (by decide), hne 101 (by decide)⟩

/-- C9: for every configuration map, `DEFAULT_PAGE` unset or not an integer
gives page 0, `SLEEP_TIME` unset or not an integer gives 3 seconds,
`BUTTON_PAGE` unset or not an integer gives jump page 4, and each of
`SHOW_LOGO`, `SHOW_DHT`, `ON_LOOP` is true exactly for the upper/lower case
spellings of `true`, so false for every other value and when unset. The case
table of `strings.ToLower` is any that sends no rune outside ASCII to `t`, `r`,
`u` or `e`, as the Unicode tables do. -/
theorem config_fallbacks (tbl : Char → Char) (cfg : Config) (stepEnd : Int)
    (htbl : ∀ c : Char, 128 ≤ c.toNat →
      tbl c ≠ 't' ∧ tbl c ≠ 'r' ∧ tbl c ≠ 'u' ∧ tbl c ≠ 'e') :
    ((cfg.lookup "DEFAULT_PAGE" = none ∨ atoi (cfg.get "DEFAULT_PAGE") = none) →
        defaultPage cfg = 0) ∧
      ((cfg.lookup "SLEEP_TIME" = none ∨ atoi (cfg.get "SLEEP_TIME") = none) →
        showSleepTime cfg = 3 * second) ∧
      ((cfg.lookup "BUTTON_PAGE" = none ∨ atoi (cfg.get "BUTTON_PAGE") = none) →
        setButtonPage cfg stepEnd = 4) ∧
      shouldShowLOGO tbl cfg = spellsTrue (cfg.get "SHOW_LOGO") ∧
      (shouldShowDHT tbl cfg).1 = spellsTrue (cfg.get "SHOW_DHT") ∧
      shouldOnLoop tbl cfg = spellsTrue (cfg.get "ON_LOOP") ∧
      (∀ k : String, cfg.lookup k = none → spellsTrue (cfg.get k) = false) := by
  have hunset : ∀ k : String, cfg.lookup k = none → cfg.get k = "" := by
    intro k hk
    simp [Config.get, hk]
  have hempty : atoi "" = none := by decide
  refine ⟨?_, ?_, ?_, ?_, ?_, ?_, ?_⟩
  · intro h
    unfold defaultPage
    by_cases he : cfg.get "DEFAULT_PAGE" = ""
    · simp only [he, if_true]
      decide
    · rcases h with h | h
      · exact absurd (hunset _ h) he
      · simp only [he, if_false, h]
  · intro h
    unfold showSleepTime
    by_cases he : cfg.get "SLEEP_TIME" = ""
    · simp only [he, if_true]
      decide
    · rcases h with h | h
      · exact absurd (hunset _ h) he
      · simp only [he, if_false, h]
  · intro h
    unfold setButtonPage
    rcases h with h | h
    · rw [hunset _ h, hempty]
    · rw [h]
  · exact toLower_eq_true_iff tbl htbl _
  · exact toLower_eq_true_iff tbl htbl _
  · exact toLower_eq_true_iff tbl htbl _
  · intro k hk
    rw [hunset k hk]
    decide

/-- Witness for C9: a file whose numeric values are not integers and whose
flags are `yes`, `TRUE` and `1`. -/
theorem config_fallbacks_witness :
    defaultPage cfgGarbled = 0 ∧ showSleepTime cfgGarbled = 3 * second ∧
      setButtonPage cfgGarbled 6 = 4 ∧ shouldShowLOGO kelvinTable cfgGarbled = false ∧
      (shouldShowDHT kelvinTable cfgGarbled).1 = true ∧
      shouldOnLoop kelvinTable cfgGarbled = false :=
  have h := config_fallbacks kelvinTable cfgGarbled 6 kelvinTable_ok
  ⟨h.1 (Or.inr (by decide)), h.2.1 (Or.inr (by decide)), h.2.2.1 (Or.inr (by decide)),
    h.2.2.2.1.trans (by decide), h.2.2.2.2.1.trans (by decide),
    h.2.2.2.2.2.1.trans (by decide)⟩

/-! ## Scenario: autoplay from page 2 -/

/-- Counterexample to C10: in the scenario, after the boot pass, one tick
and a Button 1 press the page is 2, not 1, and it is still 2 after the next
tick. -/
theorem scenario_previous_gives_page2 :
    (run kelvinTable (initState kelvinTable (some cfgScenario) allLow)
        [Event.tick true, Event.tick true, Event.press Button.button1]).map
        (fun s => s.stepBy) = some 2 ∧
      (run kelvinTable (initState kelvinTable (some cfgScenario) allLow)
        [Event.tick true, Event.tick true, Event.press Button.button1]).map
        (fun s => s.stepBy) ≠ some 1 ∧
      (run kelvinTable (initState kelvinTable (some cfgScenario) allLow)
        [Event.tick true, Event.tick true, Event.press Button.button1, Event.tick true]).map
        (fun s => s.stepBy) = some 2 := by
  decide

/-- What `initState` leaves in the fields the scenario uses. -/
theorem initState_fields (tbl : Char → Char) (file : Option Config) (lv0 : String → Bool) :
    (initState tbl file lv0).stepBy = defaultPage (loadEnv file) ∧
      (initState tbl file lv0).onLoop = shouldOnLoop tbl (loadEnv file) ∧
      (initState tbl file lv0).sleepTime = showSleepTime (loadEnv file) ∧
      (initState tbl file lv0).firstRun = true ∧
      (initState tbl file lv0).stepEnd = 6 := by
  by_cases h : shouldOnLoop tbl (loadEnv file) = true
  · simp [initState, initGPIO, h]
  · simp [initState, initGPIO, h]

/-- The trace of the scenario from any state on page 2 with autoplay on, the
boot pass still to run and six pages. -/
theorem scenario_from (tbl : Char → Char) (s : State) (ok1 ok2 ok3 : Bool)
    (hPage : s.stepBy = 2) (hLoop : s.onLoop = true) (hFirst : s.firstRun = true)
    (hEnd : s.stepEnd = 6) :
    (run tbl s [Event.tick ok1]).map (fun t => t.stepBy) = some 2 ∧
      (run tbl s [Event.tick ok1, Event.tick ok2]).map (fun t => (t.stepBy, t.onLoop)) =
        some (3, true) ∧
      (run tbl s [Event.tick ok1, Event.tick ok2, Event.press Button.button1]).map
        (fun t => (t.stepBy, t.onLoop, t.sleepTime)) = some (2, false, 1 * second) ∧
      (run tbl s [Event.tick ok1, Event.tick ok2, Event.press Button.button1,
        Event.tick ok3]).map (fun t => (t.stepBy, t.onLoop)) = some (2, false) := by
  have w3 : wrapInt 3 = 3 := by decide
  have w2 : wrapInt 2 = 2 := by decide
  refine ⟨?_, ?_, ?_, ?_⟩
  · simp [run, step, mainLoopIter, hPage, hFirst]
  · simp [run, step, mainLoopIter, tickEnd, hPage, hFirst, hLoop, hEnd, w3]
  · simp [run, step, mainLoopIter, tickEnd, press, stopLoop, hPage, hFirst, hLoop, hEnd, w3, w2]
  · simp [run, step, mainLoopIter, tickEnd, press, stopLoop, hPage, hFirst, hLoop, hEnd, w3, w2]

/-- C10 (amended): with six content pages and a configuration in which
`ON_LOOP=true`, `SLEEP_TIME=3` and `DEFAULT_PAGE=2`, the page is 2 after the
boot pass and 3 after one tick with no button input; a Button 1 press then
gives page 2 (3 decremented) with autoplay off, and the following tick leaves
the page at 2. -/
theorem scenario_trace (tbl : Char → Char) (cfg : Config) (lv0 : String → Bool)
    (ok1 ok2 ok3 : Bool)
    (hLoop : cfg.get "ON_LOOP" = "true") (hSleep : cfg.get "SLEEP_TIME" = "3")
    (hPage : cfg.get "DEFAULT_PAGE" = "2") :
    (initState tbl (some cfg) lv0).stepEnd = 6 ∧
      (initState tbl (some cfg) lv0).sleepTime = 3 * second ∧
      (run tbl (initState tbl (some cfg) lv0) [Event.tick ok1]).map (fun t => t.stepBy) =
        some 2 ∧
      (run tbl (initState tbl (some cfg) lv0) [Event.tick ok1, Event.tick ok2]).map
        (fun t => (t.stepBy, t.onLoop)) = some (3, true) ∧
      (run tbl (initState tbl (some cfg) lv0)
        [Event.tick ok1, Event.tick ok2, Event.press Button.button1]).map
        (fun t => (t.stepBy, t.onLoop, t.sleepTime)) = some (2, false, 1 * second) ∧
      (run tbl (initState tbl (some cfg) lv0)
        [Event.tick ok1, Event.tick ok2, Event.press Button.button1, Event.tick ok3]).map
        (fun t => (t.stepBy, t.onLoop)) = some (2, false) := by
  obtain ⟨f1, f2, f3, f4, f5⟩ := initState_fields tbl (some cfg) lv0
  have hp : defaultPage (loadEnv (some cfg)) = 2 := by
    unfold defaultPage loadEnv
    rw [hPage]
    decide
  have hl : shouldOnLoop tbl (loadEnv (some cfg)) = true := by
    unfold shouldOnLoop loadEnv
    rw [hLoop]
    simp [toLower, toLowerRune]
  have hs : showSleepTime (loadEnv (some cfg)) = 3 * second := by
    unfold showSleepTime loadEnv
    rw [hSleep]
    decide
  exact ⟨f5, f3.trans hs,
    scenario_from tbl _ ok1 ok2 ok3 (f1.trans hp) (f2.trans hl) f4 f5⟩

/-- Witness for C10 (amended): the file with exactly the three keys of the
scenario. -/
theorem scenario_trace_witness :
    cfgScenario.get "ON_LOOP" = "true" ∧ cfgScenario.get "SLEEP_TIME" = "3" ∧
      cfgScenario.get "DEFAULT_PAGE" = "2" ∧
      (run kelvinTable (initState kelvinTable (some cfgScenario) allLow)
        [Event.tick true, Event.tick true, Event.press Button.button1, Event.tick true]).map
        (fun t => (t.stepBy, t.onLoop)) = some (2, false) :=
  ⟨by decide, by decide, by decide,
    (scenario_trace kelvinTable cfgScenario allLow true true true
      (by decide) (by decide) (by decide)).2.2.2.2.2⟩

/-! ## Line wrapping of the sensor error -/

/-- A quotient is pinned by the two multiples around the dividend. -/
theorem ediv_eq_of_bounds (x n k : Int) (hn : 0 < n) (h1 : k * n ≤ x)
    (h2 : x < (k + 1) * n) : x / n = k := by
  have a : k ≤ x / n := (Int.le_ediv_iff_mul_le hn).mpr h1
  have b : x / n < k + 1 := (Int.ediv_lt_iff_lt_mul hn).mpr h2
  omega

/-- A slice expression with bounds in range returns `j - i` bytes, and it
extends the first `i` bytes of the string to the first `j`. -/
theorem slice_some (s : List UInt8) (i j : Int) (h0 : 0 ≤ i) (h1 : i ≤ j)
    (h2 : j ≤ s.length) :
    slice s i j = some ((s.drop i.toNat).take (j - i).toNat) ∧
      (((s.drop i.toNat).take (j - i).toNat).length : Int) = j - i ∧
      s.take i.toNat ++ (s.drop i.toNat).take (j - i).toNat = s.take j.toNat := by
  refine ⟨by simp [slice, h0, h1, h2], ?_, ?_⟩
  · simp only [List.length_take, List.length_drop]
    omega
  · have hj : j.toNat = i.toNat + (j - i).toNat := by omega
    rw [hj, List.take_add]

/-- The loop of `splitByN` from a pass that starts at a multiple `i` of `n`,
with pieces of `n` bytes that make up the first `i` bytes: it ends and returns
the pieces of the whole string. -/
theorem splitByNLoop_spec (s : List UInt8) (n : Int) (hn : 0 < n) (hmax : n ≤ maxInt)
    (hlen : (s.length : Int) ≤ 4611686018427387904) :
    ∀ (fuel : Nat) (i : Int) (result : List (List UInt8)),
      i = n * result.length → i ≤ s.length → (∀ p ∈ result, (p.length : Int) = n) →
      result.flatten = s.take i.toNat → (s.length : Int) - i < fuel →
      ∃ out, splitByNLoop s n fuel i result = some out ∧
        (out.length : Int) = (s.length + n - 1) / n ∧
        (∀ p ∈ out, (p.length : Int) ≤ n) ∧
        (∀ p ∈ out.dropLast, (p.length : Int) = n) ∧
        out.flatten = s := by
  unfold maxInt at hmax
  intro fuel
  induction fuel with
  | zero =>
    intro i result _ hle _ _ hfuel
    exfalso
    simp only [Nat.cast_zero] at hfuel
    omega
  | succ fuel ih =>
    intro i result hi hle hall hjoin hfuel
    have hk : (0 : Int) ≤ (result.length : Int) := Int.natCast_nonneg _
    have hi0 : 0 ≤ i := by rw [hi]; exact Int.mul_nonneg (le_of_lt hn) hk
    have hin : i = 0 ∨ n ≤ i := by
      rcases Nat.eq_zero_or_pos result.length with h0 | hpos
      · left; rw [hi, h0]; simp
      · right
        have h1 : (1 : Int) ≤ (result.length : Int) := by exact_mod_cast hpos
        rw [hi]
        nlinarith
    have hkn : (result.length : Int) * n = i := by rw [hi]; ring
    unfold splitByNLoop
    by_cases hlt : i < (s.length : Int)
    · have hw : wrapInt (i + n) = i + n := by
        unfold wrapInt
        omega
      simp only [hlt, if_true, hw]
      by_cases hgt : i + n > (s.length : Int)
      · simp only [hgt, if_true]
        obtain ⟨e1, e2, e3⟩ := slice_some s i s.length hi0 hle (le_refl _)
        rw [e1]
        simp only
        cases fuel with
        | zero =>
          exfalso
          push_cast at hfuel
          omega
        | succ f =>
          unfold splitByNLoop
          have hnl : ¬ (i + n < (s.length : Int)) := by omega
          simp only [hnl, if_false]
          refine ⟨_, rfl, ?_, ?_, ?_, ?_⟩
          · rw [List.length_append, List.length_singleton]
            push_cast
            symm
            apply ediv_eq_of_bounds _ _ _ hn
            · have : ((result.length : Int) + 1) * n = i + n := by rw [← hkn]; ring
              rw [this]; omega
            · have : ((result.length : Int) + 1 + 1) * n = i + n + n := by rw [← hkn]; ring
              rw [this]; omega
          · intro p hp
            rcases List.mem_append.mp hp with h | h
            · rw [hall p h]
            · rw [List.mem_singleton.mp h, e2]; omega
          · rw [List.dropLast_concat]
            exact hall
          · rw [List.flatten_append, hjoin]
            simp only [List.flatten_cons, List.flatten_nil, List.append_nil]
            rw [e3]
            apply List.take_of_length_le
            omega
      · simp only [hgt, if_false]
        have hle2 : i + n ≤ (s.length : Int) := by omega
        obtain ⟨e1, e2, e3⟩ := slice_some s i (i + n) hi0 (by omega) hle2
        rw [e1]
        simp only
        apply ih (i + n) (result ++ [_])
        · rw [List.length_append, List.length_singleton]
          push_cast
          rw [hi]; ring
        · exact hle2
        · intro p hp
          rcases List.mem_append.mp hp with h | h
          · exact hall p h
          · rw [List.mem_singleton.mp h, e2]; omega
        · rw [List.flatten_append, hjoin]
          simp only [List.flatten_cons, List.flatten_nil, List.append_nil]
          exact e3
        · push_cast at hfuel
          omega
    · simp only [hlt, if_false]
      have hiL : i = (s.length : Int) := by omega
      refine ⟨_, rfl, ?_, ?_, ?_, ?_⟩
      · symm
        apply ediv_eq_of_bounds _ _ _ hn
        · rw [hkn]; omega
        · have : ((result.length : Int) + 1) * n = i + n := by rw [← hkn]; ring
          rw [this]; omega
      · intro p hp
        rw [hall p hp]
      · intro p hp
        exact hall p (List.mem_of_mem_dropLast hp)
      · rw [hjoin]
        apply List.take_of_length_le
        omega

/-- C11: for every string `s` (at most `2^62` bytes, which every string in
memory is) and every width `n > 0`, `splitByN(s, n)` returns, and returns
exactly `ceil(len(s)/n)` pieces, each of at most `n` bytes and every piece but
the last of exactly `n` bytes; the pieces put together are `s`. -/
theorem splitByN_pieces (s : List UInt8) (n : Int) (hn : 0 < n) (hmax : n ≤ maxInt)
    (hlen : (s.length : Int) ≤ 4611686018427387904) :
    ∃ pieces, splitByN s n = some pieces ∧
      (pieces.length : Int) = (s.length + n - 1) / n ∧
      (∀ p ∈ pieces, (p.length : Int) ≤ n) ∧
      (∀ p ∈ pieces.dropLast, (p.length : Int) = n) ∧
      pieces.flatten = s := by
  unfold splitByN
  apply splitByNLoop_spec s n hn hmax hlen (s.length + 1) 0 []
  · simp
  · exact Int.natCast_nonneg _
  · intro p hp
    exact absurd hp (List.not_mem_nil p)
  · simp
  · push_cast
    omega

/-- Witness for C11: an error message of 40 bytes wrapped at width 18 gives 3
pieces. -/
theorem splitByN_pieces_witness :
    (0 : Int) < 18 ∧ (goBytes errorText40).length = 40 ∧
      (splitByN (goBytes errorText40) 18).map List.length = some 3 := by
  obtain ⟨ps, h1, h2, _⟩ :=
    splitByN_pieces (goBytes errorText40) 18 (by decide) (by decide) (by decide)
  have h40 : (goBytes errorText40).length = 40 := by decide
  refine ⟨by decide, h40, ?_⟩
  rw [h40] at h2
  have h3 : (((40 : Nat) : Int) + 18 - 1) / 18 = 3 := by decide
  rw [h3] at h2
  rw [h1]
  simp only [Option.map_some', Option.some.injEq]
  exact_mod_cast h2

/-! ## Network address page -/

/-- The two slices of page 2 are in range exactly when the address text has
at least 8 bytes. -/
theorem page2Text_isSome_iff (ipAddress : List UInt8) :
    (page2Text ipAddress).isSome = true ↔ 8 ≤ ipAddress.length := by
  unfold page2Text slice
  by_cases h : 8 ≤ ipAddress.length
  · have h1 : (0 : Int) ≤ 0 ∧ (0 : Int) ≤ 8 ∧ (8 : Int) ≤ (ipAddress.length : Int) := by omega
    have h2 : (0 : Int) ≤ 8 ∧ (8 : Int) ≤ (ipAddress.length : Int) ∧
        (ipAddress.length : Int) ≤ (ipAddress.length : Int) := by omega
    simp [h1, h2, h]
  · have h1 : ¬ ((0 : Int) ≤ 0 ∧ (0 : Int) ≤ 8 ∧ (8 : Int) ≤ (ipAddress.length : Int)) := by
      omega
    simp [h1, h]

/-- Failing input for C13: with no `wlan0`/`eth0` IPv4 address `getIPAddress`
returns `N/A`, 3 bytes, and `ipAddress[:8]` is out of range; so is it for the
7 bytes of `1.2.3.4`; 8 bytes or more are in range. -/
theorem page2_panics_on_short_address :
    getIPAddress (some "raspberrypi") (some []) = ("N/A", "raspberrypi") ∧
      getIPAddress (some "raspberrypi") none = ("N/A", "raspberrypi") ∧
      (goBytes "N/A").length = 3 ∧
      page2Text (goBytes (getIPAddress (some "raspberrypi") (some [])).1) = none ∧
      getIPAddress (some "raspberrypi") (some ethTiny) = ("1.2.3.4", "raspberrypi") ∧
      page2Text (goBytes (getIPAddress (some "raspberrypi") (some ethTiny)).1) = none ∧
      (page2Text (goBytes (getIPAddress (some "raspberrypi") (some wlanShort)).1)).isSome =
        true ∧
      (page2Text (goBytes (getIPAddress (some "raspberrypi") (some ethLong)).1)).isSome =
        true := by
  decide

end Raspi5Status
